import Mathlib

/-!
# Verification of the Edovia chat demo's wizard and comparison engine

This file is a shallow embedding, in Lean 4, of the deterministic core of the
`edovia-chat-demo` server (an Express application).  The repository contains
several near-identical revisions of the same flow; unless stated otherwise the
definitions below follow the wizard revision of `src/server.js` (the one with
the slot-filling wizard, lines 271-663 of the concatenated file).  The
currency-aware `parseBudget` of `src/unnamed/part_002` and the LLM-controller
validation of `src/unnamed/part_003` are embedded in namespaces `Part002` and
`Part003` respectively.

Conventions of the embedding:
* JavaScript numbers are modelled as `ℚ` where arithmetic (costs, scores)
  matters and as `Nat` for parsed non-negative integers (`parseInt` on digit
  strings); divisions in `matchScore` are exact rational divisions.
* JavaScript strings are `String`; the parsing heuristics work on
  `String.data : List Char` after mapping `Char.toLower`, modelling
  `text.toLowerCase()`.
* JavaScript truthiness of a number slot (`undefined`/`0` are falsy) is
  `truthyN`, of a string slot (`undefined`/`""` are falsy) is `truthyS`.
* The file system (per-country `partners/<code>.json` reference data) is an
  explicit environment parameter `load : String → Option (List Partner)`;
  `none` models a missing or corrupt file (the `catch` branch of
  `loadPartners`).
* The external LLM responder is an explicit parameter carrying the reply it
  would produce; its text is never inspected by the core logic.
-/

/-! ## Text utilities shared by the parsing heuristics -/

/-- Digits, dots and (typographic) apostrophes: the character class
`[\d.'’]` of the budget regular expression `/(\d[\d.'’]*\d|\d+)/`. -/
def numChar (c : Char) : Bool :=
  c.isDigit || c = '.' || c = '\'' || c = '’'

/-- `parseInt` on a string of decimal digits. -/
def natOfDigits (cs : List Char) : Nat :=
  cs.foldl (fun n c => 10 * n + (c.toNat - 48)) 0

/-- Substring containment, modelling JavaScript `String.prototype.includes`:
`containsSub pat cs` is `true` iff `pat` occurs contiguously in `cs`. -/
def containsSub (pat : List Char) : List Char → Bool
  | [] => pat.isEmpty
  | c :: cs => pat.isPrefixOf (c :: cs) || containsSub pat cs

/-- `text.toLowerCase()` on the character list of a string. -/
def lowerData (s : String) : List Char :=
  s.data.map Char.toLower

/-- `String(message).trim()`: strip leading and trailing whitespace. -/
def trimText (s : String) : String :=
  String.mk (((s.data.dropWhile Char.isWhitespace).reverse.dropWhile
    Char.isWhitespace).reverse)

/-- A single-quote character as a one-character string (used to spell keyword
patterns containing an apostrophe). -/
def squote : String := String.mk ['\'']

/-- JavaScript truthiness of an optional number (absent and `0` are falsy). -/
def truthyN (o : Option Nat) : Bool :=
  match o with
  | none => false
  | some n => n != 0

/-- JavaScript truthiness of an optional string (absent and `""` are falsy). -/
def truthyS (o : Option String) : Bool :=
  match o with
  | none => false
  | some s => s != ""

/-! ## Reference data and the comparison engine (`src/server.js`)

`loadPartners` (lines 298-307) reads `partners/<countryCode>.json` and returns
`[]` on any failure.  `comparePrograms` (lines 309-328) decorates each partner
with per-stay totals and a budget-fit flag and sorts ascending by total cost
with the comparator `(a, b) => a.total - b.total`; ECMAScript `Array.prototype.sort`
is stable, which the insertion sort below reproduces. -/

/-- One record of a `partners/<code>.json` file. -/
structure Partner where
  name : String
  city : String
  tuition_per_week : ℚ
  housing_per_week : ℚ
  fees : ℚ
  notes : String
deriving DecidableEq

/-- One element of the array produced by `comparePrograms`: the spread of the
partner record plus `total`, `tuition`, `housing` and `fitsBudget`. -/
structure ResultEntry where
  name : String
  city : String
  tuition_per_week : ℚ
  housing_per_week : ℚ
  fees : ℚ
  notes : String
  total : ℚ
  tuition : ℚ
  housing : ℚ
  fitsBudget : Bool
deriving DecidableEq

/-- The body of the `.map` in `comparePrograms`:
`tuition = tuition_per_week * weeks`, `housing = housing_per_week * weeks`,
`total = tuition + housing + fees`, `fitsBudget = total <= budget`. -/
def mkEntry (budget weeks : ℚ) (p : Partner) : ResultEntry :=
  let tuition := p.tuition_per_week * weeks
  let housing := p.housing_per_week * weeks
  let total := tuition + housing + p.fees
  { name := p.name
    city := p.city
    tuition_per_week := p.tuition_per_week
    housing_per_week := p.housing_per_week
    fees := p.fees
    notes := p.notes
    total := total
    tuition := tuition
    housing := housing
    fitsBudget := decide (total ≤ budget) }

/-- Stable insertion into a list sorted ascending by `total`: an element is
placed after every earlier element of equal total, as a stable sort with the
comparator `(a, b) => a.total - b.total` does. -/
def insertByTotal (x : ResultEntry) : List ResultEntry → List ResultEntry
  | [] => [x]
  | y :: ys => if x.total ≤ y.total then x :: y :: ys else y :: insertByTotal x ys

/-- The stable ascending-by-`total` sort performed by
`.sort((a, b) => a.total - b.total)`. -/
def sortByTotal (l : List ResultEntry) : List ResultEntry :=
  l.foldr insertByTotal []

/-- `loadPartners(countryCode)` (lines 298-307): the file-system outcome is the
environment `load`; a missing or corrupt file (`none`) yields `[]`. -/
def loadPartners (load : String → Option (List Partner)) (countryCode : String) :
    List Partner :=
  (load countryCode).getD []

/-- `comparePrograms({ countryCode, budget, weeks })` (lines 309-328). -/
def comparePrograms (load : String → Option (List Partner)) (countryCode : String)
    (budget weeks : ℚ) : List ResultEntry :=
  let partners := loadPartners load countryCode
  if partners.isEmpty then []
  else sortByTotal (partners.map (mkEntry budget weeks))

/-- `matchScore(total, budget)` (lines 537-546): a step function of the
relative overshoot `(total - budget) / budget`. -/
def matchScore (total budget : ℚ) : ℚ :=
  let diff := total - budget
  if diff ≤ 0 then 5
  else
    let ratio := diff / budget
    if ratio < 0.1 then 4.5
    else if ratio < 0.2 then 4
    else if ratio < 0.3 then 3.5
    else if ratio < 0.5 then 3
    else 2.5

/-- The displayed cards (line 598): `programs.slice(0, 3)`, each paired with
its `matchScore` against the wizard budget.  (Rendering of the card text is
presentation only; the pair carries everything the renderer reads.) -/
def cardsOf (programs : List ResultEntry) (budget : ℚ) :
    List (ResultEntry × ℚ) :=
  (programs.take 3).map (fun p => (p, matchScore p.total budget))

/-! ## Deterministic parsing heuristics (`src/server.js`, lines 332-389)

This revision's `parseBudget` is the plain one: any first numeric token is
accepted (no currency-marker or magnitude gate).  The currency-aware variant
of `src/unnamed/part_002` lives in namespace `Part002` further below. -/

/-- The first match of `/(\d[\d.'’]*\d|\d+)/`: starting at the first digit,
the maximal run over `[\d.'’]` truncated at its last digit.  (When the run
holds a single digit the second alternative `\d+` yields that digit, which is
the same truncation.) -/
def firstNumToken : List Char → Option (List Char)
  | [] => none
  | c :: cs =>
    if c.isDigit then
      some ((c :: cs.takeWhile numChar).reverse.dropWhile
        (fun d => !d.isDigit)).reverse
    else firstNumToken cs

/-- `match[0].replace(/[^\d]/g, "").length` and `parseInt` folded together:
the integer value of the digits of the matched token. -/
def tokenValue (tok : List Char) : Nat :=
  natOfDigits (tok.filter Char.isDigit)

/-- `parseBudget(text)` (lines 332-337): first numeric token, digits only,
`parseInt`; `isNaN` (an empty digit string) yields `null`. -/
def parseBudget (text : String) : Option Nat :=
  match firstNumToken (lowerData text) with
  | none => none
  | some tok =>
    if (tok.filter Char.isDigit).isEmpty then none
    else some (tokenValue tok)

/-- `parseCountryCode(text)` (lines 339-353). -/
def parseCountryCode (text : String) : Option String :=
  let lower := lowerData text
  if containsSub "usa".data lower || containsSub "stati uniti".data lower ||
      containsSub "stato unito".data lower || containsSub "america".data lower then
    some "us"
  else if containsSub "canada".data lower || containsSub "canadà".data lower then
    some "canada"
  else none

/-- The unit alternatives of `/(\d+)\s*(settimane|sett\.?|mesi|mese)/`, tried
in order at a given position; `some b` records whether the matched unit starts
with `"mes"` (months). -/
def unitAt (cs : List Char) : Option Bool :=
  if "settimane".data.isPrefixOf cs then some false
  else if ("sett.").data.isPrefixOf cs then some false
  else if "sett".data.isPrefixOf cs then some false
  else if "mesi".data.isPrefixOf cs then some true
  else if "mese".data.isPrefixOf cs then some true
  else none

/-- Left-to-right scan of `/(\d+)\s*(settimane|sett\.?|mesi|mese)/`: at each
position starting with a digit, the maximal digit run, then optional
whitespace, must be followed by a unit; months count as four weeks. -/
def scanNumUnit : List Char → Option Nat
  | [] => none
  | c :: cs =>
    if c.isDigit then
      let ds := (c :: cs).takeWhile Char.isDigit
      let rest := ((c :: cs).dropWhile Char.isDigit).dropWhile Char.isWhitespace
      match unitAt rest with
      | some isMonth =>
        some (if isMonth then natOfDigits ds * 4 else natOfDigits ds)
      | none => scanNumUnit cs
    else scanNumUnit cs

/-- `parseWeeks(text)` (lines 355-373): season keywords first, then the
`<number> <unit>` pattern. -/
def parseWeeks (text : String) : Option Nat :=
  let lower := lowerData text
  if containsSub "estate".data lower then some 12
  else if containsSub "semestre".data lower then some 24
  else if containsSub "anno".data lower then some 48
  else scanNumUnit lower

/-- `isProgramIntent(text)` (lines 375-389). -/
def isProgramIntent (text : String) : Bool :=
  let lower := lowerData text
  containsSub "usa".data lower ||
  containsSub "canada".data lower ||
  containsSub "programma".data lower ||
  containsSub ("all" ++ squote ++ "estero").data lower ||
  containsSub "estero".data lower ||
  containsSub "semestre".data lower ||
  containsSub "anno".data lower ||
  containsSub "summer".data lower ||
  containsSub "exchange".data lower ||
  (parseBudget text).isSome

/-! ## WizardState and the per-turn controller (`src/server.js`, lines 393-655) -/

/-- The per-session slot record `session.wizard`; a slot is "set" when it is
truthy (`truthyN`/`truthyS`). -/
structure Wizard where
  budget : Option Nat := none
  countryCode : Option String := none
  weeks : Option Nat := none
  goal : Option String := none
deriving DecidableEq

/-- The freshly reset record `session.wizard = {}`. -/
def emptyWizard : Wizard := {}

/-- A session: the free-message counter plus the wizard record. -/
structure Session where
  count : Nat
  wizard : Wizard
deriving DecidableEq

/-- `MAX_MESSAGES_FREE` (line 294). -/
def MAX_MESSAGES_FREE : Nat := 20

/-- Which reply the turn produced; each constructor corresponds to one
`return res.json(...)` site of the wizard flow.  Card text rendering is
presentation only: `results` carries the data the renderer reads. -/
inductive ReplyKind where
  | llmGeneric (reply : String)
  | askBudget
  | askCountry
  | askWeeks
  | askGoal
  | results (cards : List (ResultEntry × ℚ))
  | noPartners
deriving DecidableEq

/-- The turn outcome: HTTP 400 on a missing field, `type: "limit_reached"`,
or `type: "ok"` with a reply. -/
inductive TurnOutcome where
  | badRequest
  | limitReached
  | ok (r : ReplyKind)
deriving DecidableEq

/-- Steps 1-2 of the turn (lines 425-450): merge freshly parsed values into
unset slots (JavaScript truthiness, first-write-wins) and apply the
verbatim-goal fallback. -/
def mergePhase (wizard : Wizard) (text : String) : Wizard :=
  let detectedBudget := parseBudget text
  let w1 := if truthyN detectedBudget && !truthyN wizard.budget then
      { wizard with budget := detectedBudget } else wizard
  let detectedCountry := parseCountryCode text
  let w2 := if truthyS detectedCountry && !truthyS w1.countryCode then
      { w1 with countryCode := detectedCountry } else w1
  let detectedWeeks := parseWeeks text
  let w3 := if truthyN detectedWeeks && !truthyN w2.weeks then
      { w2 with weeks := detectedWeeks } else w2
  if truthyN w3.budget && truthyS w3.countryCode && truthyN w3.weeks &&
      !truthyS w3.goal && !truthyN detectedBudget && !truthyS detectedCountry &&
      !truthyN detectedWeeks then
    { w3 with goal := some text }
  else w3

/-- One `/chat` turn (lines 393-655) for an existing session.  `load` is the
reference-data environment and `llm` the reply the external generic responder
would give on this turn (its content is never inspected).  The `sessionId`
guard is transport-level and not modelled; the `!message` half of the guard
is. -/
def processTurn (load : String → Option (List Partner)) (llm : String)
    (s : Session) (message : String) : Session × TurnOutcome :=
  if message = "" then (s, .badRequest)
  else if MAX_MESSAGES_FREE ≤ s.count then (s, .limitReached)
  else
    let count' := s.count + 1
    let text := trimText message
    let w := mergePhase s.wizard text
    let wizardActive := truthyN w.budget || truthyS w.countryCode ||
      truthyN w.weeks || truthyS w.goal
    if !wizardActive && !isProgramIntent text then
      (⟨count', w⟩, .ok (.llmGeneric llm))
    else if !truthyN w.budget then (⟨count', w⟩, .ok .askBudget)
    else if !truthyS w.countryCode then (⟨count', w⟩, .ok .askCountry)
    else if !truthyN w.weeks then (⟨count', w⟩, .ok .askWeeks)
    else if !truthyS w.goal then (⟨count', w⟩, .ok .askGoal)
    else
      let programs := comparePrograms load (w.countryCode.getD "")
        (w.budget.getD 0) (w.weeks.getD 0)
      if programs.isEmpty then (⟨count', w⟩, .ok .noPartners)
      else (⟨count', emptyWizard⟩, .ok (.results (cardsOf programs (w.budget.getD 0))))

/-! ## The currency-aware `parseBudget` (`src/unnamed/part_002`, lines 145-167)

This later revision gates the numeric token on a monetary-context marker or a
magnitude of at least 100, so that small counts such as durations are not
mistaken for budgets. -/

namespace Part002

/-- The monetary-context check of `parseBudget` (lines 148-153): the currency
symbol, the words for euro, or a thousands-style suffix, looked for anywhere
in the lowercased text. -/
def hasCurrency (lower : List Char) : Bool :=
  containsSub "€".data lower ||
  containsSub "euro".data lower ||
  containsSub " eur".data lower ||
  containsSub " k".data lower ||
  containsSub " mila".data lower

/-- `parseBudget(text)` (lines 145-167): the first numeric token of the
lowercased text, rejected when there is no currency marker and its value is
below 100. -/
def parseBudget (text : String) : Option Nat :=
  let lower := lowerData text
  let hc := hasCurrency lower
  match firstNumToken lower with
  | none => none
  | some tok =>
    if (tok.filter Char.isDigit).isEmpty then none
    else if !hc && tokenValue tok < 100 then none
    else some (tokenValue tok)

end Part002

/-! ## The delegated-extractor contract (`src/unnamed/part_003`)

`runWizardControllerLLM` (lines 90-213) asks an external model for
`{updatedWizard, action, reply}` and validates the parsed JSON; the `/chat`
route (lines 244-258) merges `updatedWizard` into the session record by object
spread.  The external call and JSON parsing are the environment: the embedding
starts from the parse outcome, `none` standing for a parse failure or a
non-object value, and optional fields standing for present/absent keys (a
present-but-`null` field is observationally the same as an absent one for the
wizard record, and is kept distinct for the update object, where spread makes
presence meaningful). -/

namespace Part003

/-- The session wizard record of this revision (budget, countryCode, weeks,
goal, optional city). -/
structure WizardP3 where
  budget : Option Nat := none
  countryCode : Option String := none
  weeks : Option Nat := none
  goal : Option String := none
  city : Option String := none
deriving DecidableEq

/-- The fully-unset record `{}`. -/
def emptyWizardP3 : WizardP3 := {}

/-- The `updatedWizard` object of a controller reply: each field is absent
(`none`) or present with a value-or-null (`some (Option _)`); spread
overwrites with any present field, `null` included. -/
structure UpdatedWizard where
  budget : Option (Option Nat) := none
  countryCode : Option (Option String) := none
  weeks : Option (Option Nat) := none
  goal : Option (Option String) := none
  city : Option (Option String) := none
deriving DecidableEq

/-- A parsed JSON object from the model: the three contract fields, each
possibly absent.  (`action := some ""` models a present but empty string,
which is falsy.) -/
structure ParsedControl where
  updatedWizard : Option UpdatedWizard := none
  action : Option String := none
  reply : Option String := none
deriving DecidableEq

/-- What `runWizardControllerLLM` hands back to the route. -/
structure Control where
  updatedWizard : UpdatedWizard
  action : String
  reply : Option String
deriving DecidableEq

/-- The generic re-prompt of the fallback branch (lines 204-210). -/
def genericFallback : String :=
  "C" ++ squote ++ "è stato un piccolo problema tecnico nell" ++ squote ++
  "elaborazione. Riproviamo: dimmi budget totale, Paese e durata, così ti mostro i programmi compatibili."

/-- Spreading the wizard record itself (`updatedWizard: wizard` of the
fallback): every field present with its current value. -/
def toUpdated (w : WizardP3) : UpdatedWizard :=
  { budget := some w.budget
    countryCode := some w.countryCode
    weeks := some w.weeks
    goal := some w.goal
    city := some w.city }

/-- The fallback control value (lines 204-210). -/
def fallbackControl (wizard : WizardP3) : Control :=
  { updatedWizard := toUpdated wizard
    action := "ask_more"
    reply := some genericFallback }

/-- The validation of `runWizardControllerLLM` (lines 190-213): the parse
outcome is discarded when it is no object or `updatedWizard` or `action` is
missing or falsy; otherwise it is returned unchanged. -/
def runWizardControllerLLM (wizard : WizardP3) (out : Option ParsedControl) :
    Control :=
  match out with
  | none => fallbackControl wizard
  | some parsed =>
    match parsed.updatedWizard, parsed.action with
    | some u, some a =>
      if a = "" then fallbackControl wizard
      else { updatedWizard := u, action := a, reply := parsed.reply }
    | _, _ => fallbackControl wizard

/-- `session.wizard = { ...wizard, ...control.updatedWizard }` (lines
251-254): present fields of the update override, absent ones keep the old
value. -/
def applyUpdate (w : WizardP3) (u : UpdatedWizard) : WizardP3 :=
  { budget := u.budget.getD w.budget
    countryCode := u.countryCode.getD w.countryCode
    weeks := u.weeks.getD w.weeks
    goal := u.goal.getD w.goal
    city := u.city.getD w.city }

/-- Lines 248-258 of the route: run the (already parsed) controller output
through validation, merge `updatedWizard` into the session record, and keep
`action` and `llmReply = control.reply || ""` for dispatch. -/
def chatStep (w : WizardP3) (out : Option ParsedControl) :
    WizardP3 × String × String :=
  let control := runWizardControllerLLM w out
  let updated := applyUpdate w control.updatedWizard
  (updated, control.action, (control.reply).getD "")

/-- The shapes the validation actually rejects: no object at all, or a missing
`updatedWizard` key, or a missing or empty (falsy) `action` key. -/
def rejectedShape (out : Option ParsedControl) : Prop :=
  out = none ∨
    ∃ p, out = some p ∧
      (p.updatedWizard = none ∨ p.action = none ∨ p.action = some "")

end Part003

/-! ## Derived notions used by the statements -/

/-- A result entry with its budget-fit flag blanked: what remains of a
displayed candidate when everything that depends on the budget (and hence on
the match score) is erased.  Two result lists with equal `eraseFit` images
display the same candidates in the same order. -/
def eraseFit (e : ResultEntry) : ResultEntry :=
  { e with fitsBudget := true }

/-- First-write-wins slot preservation: every slot that is set (truthy)
in `w` has the same value in `w'`. -/
def slotsPreserved (w w' : Wizard) : Prop :=
  (truthyN w.budget = true → w'.budget = w.budget) ∧
  (truthyS w.countryCode = true → w'.countryCode = w.countryCode) ∧
  (truthyN w.weeks = true → w'.weeks = w.weeks) ∧
  (truthyS w.goal = true → w'.goal = w.goal)

/-- All four wizard slots are set (truthy). -/
def allFourSet (w : Wizard) : Prop :=
  truthyN w.budget = true ∧ truthyS w.countryCode = true ∧
  truthyN w.weeks = true ∧ truthyS w.goal = true

/-! ## Helper lemmas -/

/-- Inserting permutes: `insertByTotal x l` is `x :: l` up to order. -/
theorem insertByTotal_perm (x : ResultEntry) (l : List ResultEntry) :
    (insertByTotal x l).Perm (x :: l) := by
  induction l with
  | nil => simp [insertByTotal]
  | cons y ys ih =>
    simp only [insertByTotal]
    split
    · exact List.Perm.refl _
    · exact (ih.cons y).trans (List.Perm.swap x y ys)

/-- The sort is a permutation of its input. -/
theorem sortByTotal_perm (l : List ResultEntry) : (sortByTotal l).Perm l := by
  induction l with
  | nil => simp [sortByTotal]
  | cons x xs ih =>
    exact ((insertByTotal_perm x (sortByTotal xs)).trans (ih.cons x))

/-- Insertion keeps the list pairwise non-decreasing in `total`. -/
theorem pairwise_insertByTotal {x : ResultEntry} {l : List ResultEntry}
    (h : l.Pairwise (fun a b => a.total ≤ b.total)) :
    (insertByTotal x l).Pairwise (fun a b => a.total ≤ b.total) := by
  induction l with
  | nil => simp [insertByTotal]
  | cons y ys ih =>
    rw [List.pairwise_cons] at h
    simp only [insertByTotal]
    split
    case isTrue hxy =>
      refine List.pairwise_cons.mpr ⟨?_, List.pairwise_cons.mpr h⟩
      intro b hb
      rcases List.mem_cons.mp hb with rfl | hb
      · exact hxy
      · exact le_trans hxy (h.1 b hb)
    case isFalse hxy =>
      refine List.pairwise_cons.mpr ⟨?_, ih h.2⟩
      intro b hb
      rcases List.mem_cons.mp ((insertByTotal_perm x ys).mem_iff.mp hb) with
        hbx | hb
      · exact hbx ▸ le_of_not_le hxy
      · exact h.1 b hb

/-- The sort output is pairwise non-decreasing in `total`. -/
theorem pairwise_sortByTotal (l : List ResultEntry) :
    (sortByTotal l).Pairwise (fun a b => a.total ≤ b.total) := by
  induction l with
  | nil => simp [sortByTotal]
  | cons x xs ih => exact pairwise_insertByTotal ih

/-- `eraseFit` keeps the total. -/
theorem eraseFit_total (e : ResultEntry) : (eraseFit e).total = e.total := rfl

/-- Insertion is determined by the `eraseFit` image: inputs agreeing up to the
budget-fit flag insert to lists agreeing up to the budget-fit flag. -/
theorem map_eraseFit_insertByTotal {x₁ x₂ : ResultEntry}
    {l₁ l₂ : List ResultEntry} (hx : eraseFit x₁ = eraseFit x₂)
    (hl : l₁.map eraseFit = l₂.map eraseFit) :
    (insertByTotal x₁ l₁).map eraseFit = (insertByTotal x₂ l₂).map eraseFit := by
  induction l₁ generalizing l₂ with
  | nil =>
    cases l₂ with
    | nil => simp [insertByTotal, hx]
    | cons y t => simp at hl
  | cons y₁ t₁ ih =>
    cases l₂ with
    | nil => simp at hl
    | cons y₂ t₂ =>
      simp only [List.map_cons, List.cons.injEq] at hl
      have hxt := congrArg ResultEntry.total hx
      have hyt := congrArg ResultEntry.total hl.1
      rw [eraseFit_total, eraseFit_total] at hxt hyt
      simp only [insertByTotal, hxt, hyt]
      split
      · simp only [List.map_cons, hx, hl.1, hl.2]
      · simp only [List.map_cons, hl.1, List.cons.injEq, true_and]
        exact ih hl.2

/-- The sort is determined by the `eraseFit` image. -/
theorem map_eraseFit_sortByTotal {l₁ l₂ : List ResultEntry}
    (h : l₁.map eraseFit = l₂.map eraseFit) :
    (sortByTotal l₁).map eraseFit = (sortByTotal l₂).map eraseFit := by
  induction l₁ generalizing l₂ with
  | nil =>
    cases l₂ with
    | nil => rfl
    | cons y t => simp at h
  | cons x₁ t₁ ih =>
    cases l₂ with
    | nil => simp at h
    | cons x₂ t₂ =>
      simp only [List.map_cons, List.cons.injEq] at h
      exact map_eraseFit_insertByTotal h.1 (ih h.2)

/-- `mkEntry` differs between budgets only in the budget-fit flag. -/
theorem eraseFit_mkEntry (b b' w : ℚ) (p : Partner) :
    eraseFit (mkEntry b w p) = eraseFit (mkEntry b' w p) := rfl

/-- Slot preservation is reflexive. -/
theorem slotsPreserved_refl (w : Wizard) : slotsPreserved w w :=
  ⟨fun _ => rfl, fun _ => rfl, fun _ => rfl, fun _ => rfl⟩

/-- The merge phase never overwrites a set (truthy) slot. -/
theorem mergePhase_preserves (w : Wizard) (t : String) :
    slotsPreserved w (mergePhase w t) := by
  unfold mergePhase slotsPreserved
  refine ⟨?_, ?_, ?_, ?_⟩ <;> intro h <;> dsimp only <;>
    split_ifs <;> simp_all [truthyN, truthyS]

/-! ## Claims -/

/-- C1: for every candidate entry built by the comparison engine and every
budget `b > 0`, `fitsBudget` is true exactly when the computed total `t`
satisfies `t ≤ b`, and `matchScore t b` is `5.0` when `t ≤ b`, `4.5` when
`0 < (t-b)/b < 0.10`, `4.0` when `0.10 ≤ (t-b)/b < 0.20`, `3.5` when
`0.20 ≤ (t-b)/b < 0.30`, `3.0` when `0.30 ≤ (t-b)/b < 0.50`, and `2.5`
otherwise; in particular `t = 10000, b = 10000` gives `fitsBudget = true`
and score `5.0`, and `t = 11500, b = 10000` gives score `4.0`. -/
theorem C1_matchScore_steps (p : Partner) (w b : ℚ) (hb : 0 < b) :
    ((mkEntry b w p).fitsBudget = true ↔ (mkEntry b w p).total ≤ b) ∧
    (∀ t : ℚ,
      (t ≤ b → matchScore t b = 5) ∧
      (0 < (t - b) / b → (t - b) / b < 0.1 → matchScore t b = 4.5) ∧
      (0.1 ≤ (t - b) / b → (t - b) / b < 0.2 → matchScore t b = 4) ∧
      (0.2 ≤ (t - b) / b → (t - b) / b < 0.3 → matchScore t b = 3.5) ∧
      (0.3 ≤ (t - b) / b → (t - b) / b < 0.5 → matchScore t b = 3) ∧
      (0.5 ≤ (t - b) / b → matchScore t b = 2.5)) ∧
    (mkEntry 10000 1 ⟨"s", "c", 10000, 0, 0, "n"⟩).fitsBudget = true ∧
    matchScore 10000 10000 = 5 ∧
    matchScore 11500 10000 = 4 := by
  have hbne : b ≠ 0 := ne_of_gt hb
  refine ⟨?_, ?_, by norm_num [mkEntry], by norm_num [matchScore],
    by norm_num [matchScore]⟩
  · simp [mkEntry]
  · intro t
    have key : (t - b) / b * b = t - b := div_mul_cancel₀ _ hbne
    refine ⟨?_, ?_, ?_, ?_, ?_, ?_⟩
    · intro h
      simp only [matchScore]
      rw [if_pos (by linarith : t - b ≤ 0)]
    · intro h0 h1
      have hd : 0 < t - b := by
        have := mul_pos h0 hb
        rwa [key] at this
      simp only [matchScore]
      rw [if_neg (by linarith : ¬t - b ≤ 0), if_pos h1]
    · intro h0 h1
      have hd : 0 < t - b := by
        have : (0 : ℚ) < (t - b) / b := by
          have : (0 : ℚ) < 0.1 := by norm_num
          linarith
        have := mul_pos this hb
        rwa [key] at this
      simp only [matchScore]
      rw [if_neg (by linarith : ¬t - b ≤ 0),
        if_neg (by linarith : ¬(t - b) / b < 0.1), if_pos h1]
    · intro h0 h1
      have hd : 0 < t - b := by
        have : (0 : ℚ) < (t - b) / b := by
          have : (0 : ℚ) < 0.2 := by norm_num
          linarith
        have := mul_pos this hb
        rwa [key] at this
      simp only [matchScore]
      rw [if_neg (by linarith : ¬t - b ≤ 0),
        if_neg (by linarith : ¬(t - b) / b < 0.1),
        if_neg (by linarith : ¬(t - b) / b < 0.2), if_pos h1]
    · intro h0 h1
      have hd : 0 < t - b := by
        have : (0 : ℚ) < (t - b) / b := by
          have : (0 : ℚ) < 0.3 := by norm_num
          linarith
        have := mul_pos this hb
        rwa [key] at this
      simp only [matchScore]
      rw [if_neg (by linarith : ¬t - b ≤ 0),
        if_neg (by linarith : ¬(t - b) / b < 0.1),
        if_neg (by linarith : ¬(t - b) / b < 0.2),
        if_neg (by linarith : ¬(t - b) / b < 0.3), if_pos h1]
    · intro h0
      have hd : 0 < t - b := by
        have : (0 : ℚ) < (t - b) / b := by
          have : (0 : ℚ) < 0.5 := by norm_num
          linarith
        have := mul_pos this hb
        rwa [key] at this
      simp only [matchScore]
      rw [if_neg (by linarith : ¬t - b ≤ 0),
        if_neg (by linarith : ¬(t - b) / b < 0.1),
        if_neg (by linarith : ¬(t - b) / b < 0.2),
        if_neg (by linarith : ¬(t - b) / b < 0.3),
        if_neg (by linarith : ¬(t - b) / b < 0.5)]

/-- Witness for C1 at a concrete candidate and budget: the claim instance
`t = 11500, b = 10000 → matchScore = 4.0`, through `C1_matchScore_steps`. -/
theorem C1_matchScore_steps_witness : matchScore 11500 10000 = 4 :=
  (C1_matchScore_steps ⟨"s", "c", 300, 100, 400, "n"⟩ 24 10000
    (by norm_num)).2.2.2.2

/-- C3: a turn on a session whose counter is at or above
`MAX_MESSAGES_FREE = 20` answers `limit_reached` and returns the session
untouched: no slot changes and the counter is not incremented. -/
theorem C3_quota_limit (load : String → Option (List Partner)) (llm : String)
    (s : Session) (message : String) (hmsg : message ≠ "")
    (hcount : MAX_MESSAGES_FREE ≤ s.count) :
    processTurn load llm s message = (s, .limitReached) := by
  simp [processTurn, hmsg, hcount]

/-- Witness for C3: a session at the limit with a set slot. -/
theorem C3_quota_limit_witness :
    processTurn (fun _ => none) "r" ⟨20, { budget := some 5000 }⟩ "ciao" =
      (⟨20, { budget := some 5000 }⟩, .limitReached) :=
  C3_quota_limit _ _ _ _ (by decide) (by decide)

/-- C9: when the reference data for a country fails to load (missing or
corrupt file, or unknown country), the comparison engine returns the empty
result list; `comparePrograms` is a total function, so no error is raised or
propagated. -/
theorem C9_load_failure (load : String → Option (List Partner))
    (countryCode : String) (budget weeks : ℚ) (h : load countryCode = none) :
    comparePrograms load countryCode budget weeks = [] := by
  simp [comparePrograms, loadPartners, h]

/-- Witness for C9: a load environment with no file for any country. -/
theorem C9_load_failure_witness :
    comparePrograms (fun _ => none) "fr" 9000 24 = [] :=
  C9_load_failure _ "fr" 9000 24 rfl

/-- C4: the currency-aware deterministic `parseBudget` returns a budget
integer only when the text carries a currency marker (symbol, money word, or
thousands-style suffix, anywhere in the lowercased text) or the located
number's value is at least 100; in particular the text `"3 mesi"`, which has
no currency marker, never yields a budget from the `"3"`. -/
theorem C4_budget_gate :
    (∀ (t : String) (v : Nat), Part002.parseBudget t = some v →
      Part002.hasCurrency (lowerData t) = true ∨ 100 ≤ v) ∧
    Part002.parseBudget "3 mesi" = none := by
  refine ⟨?_, by decide⟩
  intro t v h
  unfold Part002.parseBudget at h
  dsimp only at h
  cases htok : firstNumToken (lowerData t) with
  | none => rw [htok] at h; exact absurd h (by simp)
  | some tok =>
    rw [htok] at h
    dsimp only at h
    split at h
    · exact absurd h (by simp)
    · split at h
      · exact absurd h (by simp)
      · next hcond =>
        simp only [Option.some.injEq] at h
        subst h
        rcases Bool.not_eq_true _ ▸ hcond with hfalse
        simp only [Bool.and_eq_true, Bool.not_eq_true', decide_eq_true_eq,
          not_and, not_lt] at hcond
        by_cases hc : Part002.hasCurrency (lowerData t) = true
        · exact Or.inl hc
        · refine Or.inr ?_
          have : Part002.hasCurrency (lowerData t) = false :=
            Bool.not_eq_true _ ▸ hc
          exact hcond (by simp [this])

/-- Witness for C4: a bare number of magnitude at least 100 is accepted, and
the disjunction holds for it. -/
theorem C4_budget_gate_witness :
    Part002.hasCurrency (lowerData "3000") = true ∨ 100 ≤ 3000 :=
  C4_budget_gate.1 "3000" 3000 (by decide)

/-- C10: the value of the currency-aware `parseBudget` always comes from the
first numeric token of the lowercased text, while the currency-marker check
scans the whole text; hence `"3 mesi con 9000 euro"` carries a currency
marker (attached to the later `9000`) yet parses to budget `3`, the first
small number. -/
theorem C10_first_number_wins :
    (∀ (t : String) (v : Nat), Part002.parseBudget t = some v →
      ∃ tok, firstNumToken (lowerData t) = some tok ∧ v = tokenValue tok) ∧
    Part002.hasCurrency (lowerData "3 mesi con 9000 euro") = true ∧
    Part002.parseBudget "3 mesi con 9000 euro" = some 3 := by
  refine ⟨?_, by decide, by decide⟩
  intro t v h
  unfold Part002.parseBudget at h
  dsimp only at h
  cases htok : firstNumToken (lowerData t) with
  | none => rw [htok] at h; exact absurd h (by simp)
  | some tok =>
    rw [htok] at h
    dsimp only at h
    split at h
    · exact absurd h (by simp)
    · split at h
      · exact absurd h (by simp)
      · simp only [Option.some.injEq] at h
        exact ⟨tok, rfl, h.symm⟩

/-- Witness for C10: the general part applied to the cited input. -/
theorem C10_first_number_wins_witness :
    ∃ tok, firstNumToken (lowerData "3 mesi con 9000 euro") = some tok ∧
      3 = tokenValue tok :=
  C10_first_number_wins.1 "3 mesi con 9000 euro" 3 (by decide)

/-- C2: for every candidate set, the comparison result is sorted
non-decreasingly by total cost; the displayed card list takes at most the
first three of it (the cheapest) in that order; the result is a permutation
of the decorated candidate set; and the entries and their order, up to the
budget-dependent `fitsBudget` flag, do not depend on the budget at all —
since each `matchScore` is a function of the entry total and the budget, the
display order is never reordered by score. -/
theorem C2_ranking (load : String → Option (List Partner)) (countryCode : String)
    (b b' w : ℚ) :
    List.Pairwise (fun x y => x.total ≤ y.total)
      (comparePrograms load countryCode b w) ∧
    List.Pairwise (fun x y => x.1.total ≤ y.1.total)
      (cardsOf (comparePrograms load countryCode b w) b) ∧
    (cardsOf (comparePrograms load countryCode b w) b).length ≤ 3 ∧
    (comparePrograms load countryCode b w).Perm
      ((loadPartners load countryCode).map (mkEntry b w)) ∧
    (comparePrograms load countryCode b w).map eraseFit =
      (comparePrograms load countryCode b' w).map eraseFit := by
  have hsorted : List.Pairwise (fun x y => x.total ≤ y.total)
      (comparePrograms load countryCode b w) := by
    unfold comparePrograms
    dsimp only
    split
    · exact List.Pairwise.nil
    · exact pairwise_sortByTotal _
  refine ⟨hsorted, ?_, ?_, ?_, ?_⟩
  · unfold cardsOf
    exact List.pairwise_map.mpr
      (List.Pairwise.sublist (List.take_sublist 3 _) hsorted)
  · unfold cardsOf
    rw [List.length_map]
    exact List.length_take_le 3 _
  · unfold comparePrograms
    dsimp only
    split
    · next hemp =>
      rw [List.isEmpty_iff.mp hemp]
      exact List.Perm.refl _
    · exact sortByTotal_perm _
  · unfold comparePrograms
    dsimp only
    split
    · rfl
    · exact map_eraseFit_sortByTotal (by
        rw [List.map_map, List.map_map]
        exact congrArg (fun f => List.map f (loadPartners load countryCode))
          (funext fun p => eraseFit_mkEntry b b' w p))

/-- C5: under the deterministic strategy, on a turn where budget, country and
duration are already set, the goal is unset, and the extractor produced no
budget, country or duration value from this turn's text, the merge step of
the controller stores the whole input text (as handed to the merge, i.e. the
trimmed message) in the goal slot.  (`processTurn` invokes `mergePhase` on
`trimText message`.) -/
theorem C5_verbatim_goal (w : Wizard) (text : String)
    (hb : truthyN w.budget = true) (hc : truthyS w.countryCode = true)
    (hw : truthyN w.weeks = true) (hg : truthyS w.goal = false)
    (h1 : parseBudget text = none) (h2 : parseCountryCode text = none)
    (h3 : parseWeeks text = none) :
    (mergePhase w text).goal = some text := by
  unfold mergePhase
  dsimp only
  rw [h1, h2, h3]
  have tn : truthyN none = false := rfl
  have ts : truthyS none = false := rfl
  simp [tn, ts, hb, hc, hw, hg]

/-- Witness for C5: a complete record except the goal, and a message that
parses to nothing. -/
theorem C5_verbatim_goal_witness :
    (mergePhase
      { budget := some 9000, countryCode := some "us", weeks := some 24 }
      "migliorare il mio inglese").goal = some "migliorare il mio inglese" :=
  C5_verbatim_goal _ _ (by decide) (by decide) (by decide) (by decide)
    (by decide) (by decide) (by decide)

/-- C6: under the deterministic strategy a processed turn never overwrites a
set slot with a different value: either the turn delivered a successful
comparison (a `results` reply) and performed the full reset, or every slot
that was set (truthy) before the turn has the same value after it. -/
theorem C6_first_write_wins (load : String → Option (List Partner))
    (llm : String) (s : Session) (message : String) :
    (∃ cs, (processTurn load llm s message).2 = .ok (.results cs) ∧
      (processTurn load llm s message).1.wizard = emptyWizard) ∨
    slotsPreserved s.wizard (processTurn load llm s message).1.wizard := by
  unfold processTurn
  dsimp only
  split_ifs
  case _ => exact Or.inr (slotsPreserved_refl _)
  case _ => exact Or.inr (slotsPreserved_refl _)
  all_goals
    first
    | exact Or.inr (mergePhase_preserves _ _)
    | exact Or.inl ⟨_, rfl, rfl⟩

/-- Witness for C6 at a concrete turn. -/
theorem C6_first_write_wins_witness :
    (∃ cs, (processTurn (fun _ => none) "r" ⟨0, emptyWizard⟩ "ciao").2 =
        .ok (.results cs) ∧
      (processTurn (fun _ => none) "r" ⟨0, emptyWizard⟩ "ciao").1.wizard =
        emptyWizard) ∨
    slotsPreserved emptyWizard
      (processTurn (fun _ => none) "r" ⟨0, emptyWizard⟩ "ciao").1.wizard :=
  C6_first_write_wins _ _ _ _

/-- C7 counterexample: a Ready turn whose comparison yields zero candidates
in which a WizardState slot does not retain its pre-turn value.  The session
enters the turn with budget, country and duration set and the goal unset; the
message parses to nothing, so the verbatim-goal fallback fills the goal
during the turn; the comparison then finds no partners (`noPartners` reply),
and the record keeps the goal that was unset before the turn — so not every
slot retains its pre-turn value, refuting the claim as stated. -/
theorem C7_counterexample :
    (processTurn (fun _ => none) "r"
        ⟨3, ⟨some 8000, some "us", some 24, none⟩⟩ "imparare cose nuove").2 =
      .ok .noPartners ∧
    (processTurn (fun _ => none) "r"
        ⟨3, ⟨some 8000, some "us", some 24, none⟩⟩ "imparare cose nuove").1.wizard.goal =
      some "imparare cose nuove" ∧
    (⟨some 8000, some "us", some 24, none⟩ : Wizard).goal = none := by
  refine ⟨by decide, by decide, rfl⟩

/-- C7 amended: after a Ready turn that delivers a non-empty result set all
four slots are unset; after a Ready turn whose comparison yields zero
candidates the record is not reset — every slot that was set before the turn
keeps its value, and all four slots are set after the turn (slots filled by
this very turn's extraction included), so the user can amend one parameter
and retry. -/
theorem C7_reset_amended (load : String → Option (List Partner)) (llm : String)
    (s : Session) (message : String) :
    match processTurn load llm s message with
    | (s', .ok (.results _)) => s'.wizard = emptyWizard
    | (s', .ok .noPartners) =>
        slotsPreserved s.wizard s'.wizard ∧ allFourSet s'.wizard
    | _ => True := by
  unfold processTurn
  dsimp only
  split_ifs <;> try trivial
  case _ hmsg hcount hactive hbud hcc hwks hgoal hemp =>
    refine ⟨mergePhase_preserves _ _, ?_, ?_, ?_, ?_⟩
    · simpa using hbud
    · simpa using hcc
    · simpa using hwks
    · simpa using hgoal

/-- Witness for C7 (amended) at a concrete successful Ready turn. -/
theorem C7_reset_amended_witness :
    match processTurn (fun _ => some [⟨"A", "Boston", 100, 50, 400, "n"⟩]) "r"
        ⟨0, ⟨some 10000, some "us", some 24, some "cultura"⟩⟩ "vai" with
    | (s', .ok (.results _)) => s'.wizard = emptyWizard
    | (s', .ok .noPartners) =>
        slotsPreserved (⟨some 10000, some "us", some 24, some "cultura"⟩ : Wizard)
          s'.wizard ∧ allFourSet s'.wizard
    | _ => True :=
  C7_reset_amended _ _ _ _

/-- C8 counterexample: a delegated-extractor output that is missing the
required `userMessage`/`reply` field of the contract shape, yet is *not*
discarded: its `updatedSlots` are merged into the record (the budget slot
changes) and the reply handed on is the empty string, not the generic
re-prompt. -/
theorem C8_counterexample :
    (Part003.chatStep Part003.emptyWizardP3
        (some { updatedWizard := some { budget := some (some 7000) },
                action := some "ask_more" })).1.budget = some 7000 ∧
    Part003.emptyWizardP3.budget = none ∧
    (Part003.chatStep Part003.emptyWizardP3
        (some { updatedWizard := some { budget := some (some 7000) },
                action := some "ask_more" })).2.2 ≠ Part003.genericFallback := by
  refine ⟨by decide, rfl, by decide⟩

/-- C8 amended: for every delegated-extractor output that is unparseable (no
JSON object), or whose `updatedSlots` field is missing or falsy, or whose
`action` field is missing or falsy, the controller discards the entire
output: every slot is left unchanged, the reply is the generic `ask_more`
re-prompt, and no field of the output is merged into the wizard record. -/
theorem C8_validation_amended (w : Part003.WizardP3)
    (out : Option Part003.ParsedControl) (h : Part003.rejectedShape out) :
    Part003.chatStep w out = (w, "ask_more", Part003.genericFallback) := by
  have happ : Part003.applyUpdate w (Part003.toUpdated w) = w := rfl
  rcases h with h | ⟨p, hp, hshape⟩
  · subst h
    simp [Part003.chatStep, Part003.runWizardControllerLLM,
      Part003.fallbackControl, happ]
  · subst hp
    rcases hshape with h1 | h2 | h3
    · simp [Part003.chatStep, Part003.runWizardControllerLLM, h1,
        Part003.fallbackControl, happ]
    · cases hu : p.updatedWizard <;>
        simp [Part003.chatStep, Part003.runWizardControllerLLM, hu, h2,
          Part003.fallbackControl, happ]
    · cases hu : p.updatedWizard <;>
        simp [Part003.chatStep, Part003.runWizardControllerLLM, hu, h3,
          Part003.fallbackControl, happ]

/-- Witness for C8 (amended): an unparseable output at a concrete record. -/
theorem C8_validation_amended_witness :
    Part003.chatStep Part003.emptyWizardP3 none =
      (Part003.emptyWizardP3, "ask_more", Part003.genericFallback) :=
  C8_validation_amended _ none (Or.inl rfl)
